import Mathlib

/-!
Shallow embedding of the event ingestion, dedup and fan-out core of a
GitHub→Telegram notification bot, together with proofs about the claims
of its specification.

Sources embedded:
- internal/github/events.go      (normalized event payloads, message formatting)
- internal/github/webhook.go     (webhook HTTP handler and payload parsing)
- internal/github (poller file)  (poller: init phase and the four steady-state feeds)
- internal/storage (store file)  (event_records ledger: RecordEvent / IsEventProcessed)
- internal/notifier/notifier.go  (fan-out notifier: HandleWebhookEvent, generateEventID,
                                  buildMessage, isEventEnabled)
- internal/telegram/messages.go  (MessageBuilder.Build*Message)

Conventions: Go `string` is `String`, Go `int`/`int64` are `Int`, `time.Time`
is an `Int` instant (Go `t.Before u` is `t < u`, `t.After u` is `t > u`,
`t.IsZero()` is `t = 0`; a nil `*Timestamp` getter yields the zero instant).
Go slices are `List`s.  Fallible store reads are modelled with an explicit
failure flag plus the Go return values.  Channel sends are modelled as the
list of events actually sent (the drop-on-full branch is modelled where a
claim is about it).
-/

/-- GitHub user info (events.go `UserInfo`). -/
structure UserInfo where
  login : String
  avatarURL : String := ""
  url : String := ""
deriving DecidableEq, Repr

/-- Commit info inside a push payload (events.go `CommitInfo`). -/
structure CommitInfo where
  sha : String
  message : String
  author : UserInfo
  url : String
  timestamp : Int := 0
  added : List String := []
  removed : List String := []
  modified : List String := []
deriving DecidableEq, Repr

/-- Push payload (events.go `PushEvent`). -/
structure PushEvent where
  ref : String
  before : String := ""
  after : String
  commits : List CommitInfo := []
  pusher : UserInfo
  compare : String := ""
  headCommit : Option CommitInfo := none
deriving DecidableEq, Repr

/-- Release payload (events.go `ReleaseEvent`). -/
structure ReleaseEvent where
  action : String
  tagName : String
  name : String := ""
  body : String := ""
  draft : Bool := false
  prerelease : Bool := false
  url : String := ""
  author : UserInfo := { login := "" }
  publishedAt : Int := 0
deriving DecidableEq, Repr

/-- Issue payload (events.go `IssueEvent`). -/
structure IssueEvent where
  action : String
  number : Int
  title : String := ""
  body : String := ""
  state : String := ""
  url : String := ""
  user : UserInfo := { login := "" }
  labels : List String := []
  assignee : Option UserInfo := none
deriving DecidableEq, Repr

/-- Branch info inside a pull-request payload (events.go `BranchInfo`). -/
structure BranchInfo where
  ref : String
  sha : String := ""
  repo : String := ""
deriving DecidableEq, Repr

/-- Pull-request payload (events.go `PullRequestEvent`). -/
structure PullRequestEvent where
  action : String
  number : Int
  title : String := ""
  body : String := ""
  state : String := ""
  url : String := ""
  user : UserInfo := { login := "" }
  merged : Bool := false
  mergedBy : Option UserInfo := none
  base : BranchInfo := { ref := "" }
  head : BranchInfo := { ref := "" }
  additions : Int := 0
  deletions : Int := 0
  commits : Int := 0
deriving DecidableEq, Repr

/-- The `Payload interface{}` of `WebhookEvent`: in the code every producer
stores one of the four pointer types, so a closed sum is faithful. -/
inductive Payload where
  | push (e : PushEvent)
  | release (e : ReleaseEvent)
  | issue (e : IssueEvent)
  | pullRequest (e : PullRequestEvent)
deriving DecidableEq, Repr

/-- Normalized event envelope (webhook.go `WebhookEvent`). -/
structure WebhookEvent where
  type : String
  repoOwner : String
  repoName : String
  payload : Payload
deriving DecidableEq, Repr

/-! ## Deduplication ledger (storage: `event_records` table) -/

/-- The unique key of the `event_records` table:
`UNIQUE(repo_owner, repo_name, event_type, event_id)`. -/
structure DedupKey where
  repoOwner : String
  repoName : String
  eventType : String
  eventId : String
deriving DecidableEq, Repr

/-- The ledger state: the set of rows of `event_records`, as a duplicate-free
list (the UNIQUE constraint of the schema). -/
abbrev Ledger := List DedupKey

/-- `SubscriptionStore.RecordEvent`: `INSERT OR IGNORE INTO event_records ...`.
Returns the new table state and the Go `error` return value; the OR IGNORE
insert does not error on a duplicate, so the result is `none` in both the
inserted and the already-present case. -/
def recordEvent (l : Ledger) (k : DedupKey) : Ledger × Option String :=
  (if k ∈ l then l else l ++ [k], none)

/-- The ledger state after `RecordEvent` (callers in the code ignore the error). -/
def recordEventLedger (l : Ledger) (k : DedupKey) : Ledger :=
  (recordEvent l k).1

/-- `SubscriptionStore.IsEventProcessed`: `SELECT COUNT(*) ... WHERE` the four
key columns match, returning `count > 0, err`.  `dbFails` models the
`db.Get` call failing: `count` keeps its zero value, so the function returns
`(false, some err)`. -/
def isEventProcessed (dbFails : Bool) (l : Ledger) (k : DedupKey) : Bool × Option String :=
  if dbFails then (false, some "db error")
  else (decide (k ∈ l), none)

/-! ## Event-id derivation -/

/-- `Notifier.generateEventID` (notifier.go): the dedup id the webhook-path
notifier derives from an event.  (The Go `default` branch is unreachable for
the closed payload sum.) -/
def generateEventID (event : WebhookEvent) : String :=
  match event.payload with
  | .push e => e.after
  | .release e => e.tagName
  | .issue e => toString e.number ++ "-" ++ e.action
  | .pullRequest e => toString e.number ++ "-" ++ e.action

/-- The release dedup id the poller builds (`fmt.Sprintf("release-%s", tagName)`
in both `recordExistingEvents` and `pollReleases`). -/
def pollerReleaseEventID (tagName : String) : String :=
  "release-" ++ tagName

/-- The issue-created dedup id the poller builds
(`fmt.Sprintf("issue-%d-created", number)`). -/
def pollerIssueCreatedID (number : Int) : String :=
  "issue-" ++ toString number ++ "-created"

/-- The issue-closed dedup id the poller builds
(`fmt.Sprintf("issue-%d-closed", number)`). -/
def pollerIssueClosedID (number : Int) : String :=
  "issue-" ++ toString number ++ "-closed"

/-- The pr-created dedup id the poller builds
(`fmt.Sprintf("pr-%d-created", number)`). -/
def pollerPRCreatedID (number : Int) : String :=
  "pr-" ++ toString number ++ "-created"

/-- The pr-closed dedup id the poller builds
(`fmt.Sprintf("pr-%d-closed", number)`). -/
def pollerPRClosedID (number : Int) : String :=
  "pr-" ++ toString number ++ "-closed"

/-- The pr-merged dedup id the poller builds
(`fmt.Sprintf("pr-%d-merged", number)`). -/
def pollerPRMergedID (number : Int) : String :=
  "pr-" ++ toString number ++ "-merged"

/-! ## Message formatting (events.go formatters, messages.go builders)

Go byte-indexed `len`/slicing is modelled on characters; this is
observationally equal on the ASCII data the embedded theorems evaluate, and
no theorem below depends on the rendered text beyond its non-emptiness. -/

/-- events.go `extractBranchName`: `refs/heads/main` → `main`. -/
def extractBranchName (ref : String) : String :=
  if ref.length > 11 ∧ ref.take 11 = "refs/heads/" then ref.drop 11 else ref

/-- events.go `truncateString`. -/
def truncateString (s : String) (maxLen : Nat) : String :=
  if s.length ≤ maxLen then s else s.take (maxLen - 3) ++ "..."

/-- The characters replaced by events.go `escapeMarkdown` (all the
single-character patterns of its `strings.NewReplacer`). -/
def markdownSpecials : List Char :=
  "_*[]()~\x60>#+-=|\x7b\x7d.!".toList

/-- events.go `escapeMarkdown`: prefix every special character with `\`. -/
def escapeMarkdown (s : String) : String :=
  String.join (s.toList.map (fun c =>
    if markdownSpecials.contains c then "\\" ++ c.toString else c.toString))

/-- events.go `(*PushEvent).FormatMessage`. -/
def formatPushMessage (e : PushEvent) : String :=
  let branch := extractBranchName e.ref
  let commitCount := e.commits.length
  let commitWord := if commitCount > 1 then "commits" else "commit"
  let header := "🔨 *" ++ e.pusher.login ++ "* pushed " ++ toString commitCount ++ " " ++
    commitWord ++ " to \x60" ++ branch ++ "\x60\n\n"
  let commitLines := String.join ((e.commits.take 5).map (fun commit =>
    "• [\x60" ++ commit.sha.take 7 ++ "\x60](" ++ commit.url ++ ") " ++
      escapeMarkdown (truncateString commit.message 50) ++ "\n"))
  let more := if e.commits.length > 5 then
    "\n_...and " ++ toString (e.commits.length - 5) ++ " more commits_\n" else ""
  header ++ commitLines ++ more ++ "\n[Compare changes](" ++ e.compare ++ ")"

/-- events.go `(*ReleaseEvent).FormatMessage`. -/
def formatReleaseMessage (e : ReleaseEvent) : String :=
  let emoji := if e.prerelease then "🧪" else "🎉"
  let name := if e.name = "" then e.tagName else e.name
  emoji ++ " *New Release: " ++ name ++ "*\n\n" ++
    "📦 Tag: \x60" ++ e.tagName ++ "\x60\n" ++
    "👤 Author: " ++ e.author.login ++ "\n" ++
    (if e.body ≠ "" then "\n" ++ truncateString e.body 300 ++ "\n" else "") ++
    "\n[View Release](" ++ e.url ++ ")"

/-- events.go `(*IssueEvent).FormatMessage` (Go renders `%v` of a `[]string`
as the space-separated list in brackets). -/
def formatIssueMessage (e : IssueEvent) : String :=
  let emoji :=
    if e.action = "opened" then "📝"
    else if e.action = "closed" then "✅"
    else if e.action = "reopened" then "🔄"
    else "📋"
  emoji ++ " *Issue #" ++ toString e.number ++ " " ++ e.action ++ "*\n\n" ++
    "📌 " ++ escapeMarkdown e.title ++ "\n" ++
    "👤 By: " ++ escapeMarkdown e.user.login ++ "\n" ++
    (if e.labels.length > 0 then
      "🏷️ Labels: [" ++ String.intercalate " " e.labels ++ "]\n" else "") ++
    "\n[View Issue](" ++ e.url ++ ")"

/-- events.go `(*PullRequestEvent).FormatMessage`. -/
def formatPRMessage (e : PullRequestEvent) : String :=
  let action := if e.action = "closed" ∧ e.merged then "merged" else e.action
  let emoji :=
    if action = "opened" then "🔀"
    else if action = "closed" then "❌"
    else if action = "merged" then "🎊"
    else if action = "reopened" then "🔄"
    else "🔀"
  emoji ++ " *PR #" ++ toString e.number ++ " " ++ action ++ "*\n\n" ++
    "📌 " ++ escapeMarkdown e.title ++ "\n" ++
    "👤 By: " ++ escapeMarkdown e.user.login ++ "\n" ++
    "🔀 " ++ escapeMarkdown e.head.ref ++ " → " ++ escapeMarkdown e.base.ref ++ "\n" ++
    (if e.commits > 0 then
      "📊 " ++ toString e.commits ++ " commits, +" ++ toString e.additions ++ "/-" ++
        toString e.deletions ++ " lines\n" else "") ++
    "\n[View PR](" ++ e.url ++ ")"

/-- messages.go: every `MessageBuilder.Build*Message` prepends the same
repository header to the payload's `FormatMessage`. -/
def repoHeader (repoOwner repoName : String) : String :=
  "🔔 *" ++ repoOwner ++ "/" ++ repoName ++ "*\n\n"

/-- messages.go `BuildPushMessage`. -/
def buildPushMessage (repoOwner repoName : String) (e : PushEvent) : String :=
  repoHeader repoOwner repoName ++ formatPushMessage e

/-- messages.go `BuildReleaseMessage`. -/
def buildReleaseMessage (repoOwner repoName : String) (e : ReleaseEvent) : String :=
  repoHeader repoOwner repoName ++ formatReleaseMessage e

/-- messages.go `BuildIssueMessage`. -/
def buildIssueMessage (repoOwner repoName : String) (e : IssueEvent) : String :=
  repoHeader repoOwner repoName ++ formatIssueMessage e

/-- messages.go `BuildPRMessage`. -/
def buildPRMessage (repoOwner repoName : String) (e : PullRequestEvent) : String :=
  repoHeader repoOwner repoName ++ formatPRMessage e

/-- notifier.go `buildMessage` (the Go `default` branch returning `""` is
unreachable for the closed payload sum). -/
def buildMessage (event : WebhookEvent) : String :=
  match event.payload with
  | .push e => buildPushMessage event.repoOwner event.repoName e
  | .release e => buildReleaseMessage event.repoOwner event.repoName e
  | .issue e => buildIssueMessage event.repoOwner event.repoName e
  | .pullRequest e => buildPRMessage event.repoOwner event.repoName e

/-! ## Subscriptions and the fan-out notifier -/

/-- storage `Subscription` row.  The stored `Events` JSON column is modelled
by the result of the `json.Unmarshal` the notifier applies to it:
`none` when the stored string fails to parse as a JSON array of event
types, `some evs` when it parses. -/
structure Subscription where
  id : Int := 0
  chatId : Int
  repoOwner : String := ""
  repoName : String := ""
  eventsParse : Option (List String)
deriving DecidableEq, Repr

/-- notifier.go `isEventEnabled`: an unparseable `Events` column enables
every event type; otherwise membership in the parsed list. -/
def isEventEnabled (sub : Subscription) (eventType : String) : Bool :=
  match sub.eventsParse with
  | none => true
  | some events => events.contains eventType

/-- The observable outcome of `Notifier.HandleWebhookEvent`: the ledger
afterwards and the chat ids a send was attempted for (a failed send is
logged and the loop continues, so it changes neither component). -/
structure NotifyResult where
  ledger : Ledger
  delivered : List Int
deriving DecidableEq, Repr

/-- The dedup key `HandleWebhookEvent` checks and records:
`(event.RepoOwner, event.RepoName, event.Type, generateEventID(event))`. -/
def dedupKeyOf (event : WebhookEvent) : DedupKey :=
  ⟨event.repoOwner, event.repoName, event.type, generateEventID event⟩

/-- notifier.go `HandleWebhookEvent`: no subscribers → no side effect;
a ledger-lookup error is logged and the boolean result (`false`) is used
as-is; an empty message aborts; otherwise every subscriber whose filter
enables the event type gets a send attempt, and the event is recorded. -/
def handleWebhookEvent (dbFails : Bool) (subs : List Subscription) (l : Ledger)
    (event : WebhookEvent) : NotifyResult :=
  if subs.isEmpty then ⟨l, []⟩
  else
    let k := dedupKeyOf event
    if (isEventProcessed dbFails l k).1 then ⟨l, []⟩
    else
      let message := buildMessage event
      if message = "" then ⟨l, []⟩
      else
        let delivered := (subs.filter (fun sub => isEventEnabled sub event.type)).map
          (fun sub => sub.chatId)
        ⟨recordEventLedger l k, delivered⟩

/-! ## Poller (github poller file)

The Go poller reads GitHub API records through go-github getters; each
record is modelled by a structure carrying exactly the fields those getters
touch (a nil pointer getter yields the zero value).  The listings the
poller receives are the function's inputs; a fetch error makes the Go
function return before its loop, i.e. behave as on an empty listing. -/

/-- A commit as returned by `Repositories.ListCommits`.  `commitDate` is the
commit timestamp the API's `Since` request option filters on (the code
itself never reads it). -/
structure RepoCommit where
  sha : String
  authorLogin : String := ""
  commitMessage : String := ""
  htmlURL : String := ""
  commitAuthorName : String := ""
  commitDate : Int := 0
deriving DecidableEq, Repr

/-- A release as returned by `Repositories.ListReleases`. -/
structure RepoRelease where
  draft : Bool := false
  publishedAt : Int := 0
  tagName : String
  name : String := ""
  body : String := ""
  prerelease : Bool := false
  htmlURL : String := ""
  authorLogin : String := ""
deriving DecidableEq, Repr

/-- An issue as returned by `Issues.ListByRepo`.  `closedAt = 0` models a
zero `ClosedAt` timestamp (`closedAt.IsZero()`). -/
structure RepoIssue where
  isPullRequest : Bool := false
  createdAt : Int := 0
  state : String := ""
  closedAt : Int := 0
  number : Int
  title : String := ""
  body : String := ""
  htmlURL : String := ""
  userLogin : String := ""
  labels : List String := []
deriving DecidableEq, Repr

/-- A pull request as returned by `PullRequests.List`. -/
structure RepoPullRequest where
  createdAt : Int := 0
  state : String := ""
  closedAt : Int := 0
  merged : Bool := false
  number : Int
  title : String := ""
  body : String := ""
  htmlURL : String := ""
  userLogin : String := ""
  additions : Int := 0
  deletions : Int := 0
  commits : Int := 0
  baseRef : String := ""
  headRef : String := ""
deriving DecidableEq, Repr

/-- `Poller.pollCommits`: for each listed commit with a non-empty SHA whose
`(owner, name, "push", sha)` key is not in the ledger, a push event is sent.
The result is the list of events sent on the channel (in loop order); the
poller records nothing to the ledger here. -/
def pollCommits (dbFails : Bool) (l : Ledger) (owner name : String)
    (commits : List RepoCommit) : List WebhookEvent :=
  commits.filterMap (fun commit =>
    if commit.sha = "" then none
    else if (isEventProcessed dbFails l ⟨owner, name, "push", commit.sha⟩).1 then none
    else some
      { type := "push", repoOwner := owner, repoName := name
        payload := .push
          { ref := "refs/heads/main"
            after := commit.sha
            pusher := { login := commit.authorLogin }
            commits := [{ sha := commit.sha, message := commit.commitMessage,
                          url := commit.htmlURL,
                          author := { login := commit.commitAuthorName } }]
            compare := commit.htmlURL } })

/-- `Poller.pollReleases`: drafts are skipped, releases published before the
watch epoch are skipped, and the `"release-" + tag` key is checked against
the ledger before sending. -/
def pollReleases (dbFails : Bool) (l : Ledger) (startTime : Int) (owner name : String)
    (releases : List RepoRelease) : List WebhookEvent :=
  releases.filterMap (fun release =>
    if release.draft then none
    else if release.publishedAt < startTime then none
    else if (isEventProcessed dbFails l
        ⟨owner, name, "release", pollerReleaseEventID release.tagName⟩).1 then none
    else some
      { type := "release", repoOwner := owner, repoName := name
        payload := .release
          { action := "published"
            tagName := release.tagName
            name := release.name
            body := release.body
            prerelease := release.prerelease
            url := release.htmlURL
            author := { login := release.authorLogin } } })

/-- `Poller.notifyIssueClosed`: check the `"issue-N-closed"` key and send a
`closed` issue event if absent (the function never records the key). -/
def notifyIssueClosed (dbFails : Bool) (l : Ledger) (owner name : String)
    (issue : RepoIssue) : Option WebhookEvent :=
  if (isEventProcessed dbFails l
      ⟨owner, name, "issues", pollerIssueClosedID issue.number⟩).1 then none
  else some
    { type := "issues", repoOwner := owner, repoName := name
      payload := .issue
        { action := "closed"
          number := issue.number
          title := issue.title
          body := issue.body
          state := "closed"
          url := issue.htmlURL
          user := { login := issue.userLogin }
          labels := issue.labels } }

/-- `Poller.pollIssues`: pull-request-flagged items are skipped; an issue
created before the watch epoch yields at most a `closed` event (when it is
closed, with a non-zero close time after the epoch); an issue created at or
after the epoch yields an `opened` event when its `"issue-N-created"` key is
absent from the ledger. -/
def pollIssues (dbFails : Bool) (l : Ledger) (startTime : Int) (owner name : String)
    (issues : List RepoIssue) : List WebhookEvent :=
  issues.filterMap (fun issue =>
    if issue.isPullRequest then none
    else if issue.createdAt < startTime then
      if issue.state = "closed" then
        if issue.closedAt ≠ 0 ∧ issue.closedAt > startTime then
          notifyIssueClosed dbFails l owner name issue
        else none
      else none
    else if (isEventProcessed dbFails l
        ⟨owner, name, "issues", pollerIssueCreatedID issue.number⟩).1 then none
    else some
      { type := "issues", repoOwner := owner, repoName := name
        payload := .issue
          { action := "opened"
            number := issue.number
            title := issue.title
            body := issue.body
            state := issue.state
            url := issue.htmlURL
            user := { login := issue.userLogin }
            labels := issue.labels } })

/-- `Poller.notifyPRClosed`: `merged` takes precedence over `closed` for both
the key and the action; the key is checked, never recorded. -/
def notifyPRClosed (dbFails : Bool) (l : Ledger) (owner name : String)
    (pr : RepoPullRequest) : Option WebhookEvent :=
  let eventID := if pr.merged then pollerPRMergedID pr.number else pollerPRClosedID pr.number
  let action := if pr.merged then "merged" else "closed"
  if (isEventProcessed dbFails l ⟨owner, name, "pull_request", eventID⟩).1 then none
  else some
    { type := "pull_request", repoOwner := owner, repoName := name
      payload := .pullRequest
        { action := action
          number := pr.number
          title := pr.title
          body := pr.body
          state := "closed"
          url := pr.htmlURL
          merged := pr.merged
          user := { login := pr.userLogin }
          additions := pr.additions
          deletions := pr.deletions
          commits := pr.commits
          base := { ref := pr.baseRef }
          head := { ref := pr.headRef } } }

/-- `Poller.pollPullRequests`: symmetric to `pollIssues` (the listing has no
`Since` option); the terminal branch delegates to `notifyPRClosed`. -/
def pollPullRequests (dbFails : Bool) (l : Ledger) (startTime : Int) (owner name : String)
    (prs : List RepoPullRequest) : List WebhookEvent :=
  prs.filterMap (fun pr =>
    if pr.createdAt < startTime then
      if pr.state = "closed" then
        if pr.closedAt ≠ 0 ∧ pr.closedAt > startTime then
          notifyPRClosed dbFails l owner name pr
        else none
      else none
    else if (isEventProcessed dbFails l
        ⟨owner, name, "pull_request", pollerPRCreatedID pr.number⟩).1 then none
    else some
      { type := "pull_request", repoOwner := owner, repoName := name
        payload := .pullRequest
          { action := "opened"
            number := pr.number
            title := pr.title
            body := pr.body
            state := pr.state
            url := pr.htmlURL
            merged := pr.merged
            user := { login := pr.userLogin }
            additions := pr.additions
            deletions := pr.deletions
            commits := pr.commits
            base := { ref := pr.baseRef }
            head := { ref := pr.headRef } } })

/-- `Poller.pollRepo`: one steady-state scan of a repository over the four
feeds, given the listings the four API calls returned.  The poller never
writes the ledger during a scan, so all four feeds see the same ledger; the
result is the concatenation of their channel sends. -/
def pollRepo (dbFails : Bool) (l : Ledger) (startTime : Int) (owner name : String)
    (commits : List RepoCommit) (releases : List RepoRelease)
    (issues : List RepoIssue) (prs : List RepoPullRequest) : List WebhookEvent :=
  pollCommits dbFails l owner name commits ++
    pollReleases dbFails l startTime owner name releases ++
    pollIssues dbFails l startTime owner name issues ++
    pollPullRequests dbFails l startTime owner name prs

/-- `Poller.recordExistingEvents` (the initialization phase for one
repository): record the recent window of all four feeds into the ledger —
commits with a non-empty SHA, non-draft releases, non-PR issues (plus the
closed key when already closed), and all listed PRs (plus the merged/closed
key when already closed).  The Go function contains no channel send, so the
list of events it sends is `[]` by construction; a feed whose fetch errors
is skipped, i.e. behaves as an empty listing. -/
def recordExistingEvents (l : Ledger) (owner name : String)
    (commits : List RepoCommit) (releases : List RepoRelease)
    (issues : List RepoIssue) (prs : List RepoPullRequest) : Ledger × List WebhookEvent :=
  let l1 := commits.foldl (fun acc commit =>
    if commit.sha ≠ "" then recordEventLedger acc ⟨owner, name, "push", commit.sha⟩
    else acc) l
  let l2 := releases.foldl (fun acc release =>
    if ¬ release.draft then
      recordEventLedger acc ⟨owner, name, "release", pollerReleaseEventID release.tagName⟩
    else acc) l1
  let l3 := issues.foldl (fun acc issue =>
    if ¬ issue.isPullRequest then
      let acc' := recordEventLedger acc ⟨owner, name, "issues", pollerIssueCreatedID issue.number⟩
      if issue.state = "closed" then
        recordEventLedger acc' ⟨owner, name, "issues", pollerIssueClosedID issue.number⟩
      else acc'
    else acc) l2
  let l4 := prs.foldl (fun acc pr =>
    let acc' := recordEventLedger acc ⟨owner, name, "pull_request", pollerPRCreatedID pr.number⟩
    if pr.state = "closed" then
      recordEventLedger acc'
        ⟨owner, name, "pull_request",
          if pr.merged then pollerPRMergedID pr.number else pollerPRClosedID pr.number⟩
    else acc') l3
  (l4, [])

/-! ## Webhook ingestor (webhook.go)

The request body is provider JSON; `json.Unmarshal` into the handler's
anonymous structs succeeds exactly when the body is well-formed for them,
missing fields defaulting to zero values.  The body is therefore modelled
by one well-formedness bit plus the field values each of the four payload
views would decode. -/

/-- A commit entry of a push webhook body. -/
structure BodyCommit where
  id : String := ""
  message : String := ""
  url : String := ""
  authorName : String := ""
  added : List String := []
  removed : List String := []
  modified : List String := []
deriving DecidableEq, Repr

/-- The push view of a webhook body. -/
structure BodyPush where
  ref : String := ""
  before : String := ""
  after : String := ""
  compare : String := ""
  pusherName : String := ""
  commits : List BodyCommit := []
deriving DecidableEq, Repr

/-- The release view of a webhook body. -/
structure BodyRelease where
  action : String := ""
  tagName : String := ""
  name : String := ""
  body : String := ""
  draft : Bool := false
  prerelease : Bool := false
  htmlURL : String := ""
  authorLogin : String := ""
  authorAvatarURL : String := ""
  authorHTMLURL : String := ""
deriving DecidableEq, Repr

/-- A user object inside a webhook body. -/
structure BodyUser where
  login : String := ""
  avatarURL : String := ""
  htmlURL : String := ""
deriving DecidableEq, Repr

/-- The issues view of a webhook body. -/
structure BodyIssue where
  action : String := ""
  number : Int := 0
  title : String := ""
  body : String := ""
  state : String := ""
  htmlURL : String := ""
  user : BodyUser := {}
  labels : List String := []
  assignee : Option BodyUser := none
deriving DecidableEq, Repr

/-- The pull-request view of a webhook body. -/
structure BodyPullRequest where
  action : String := ""
  number : Int := 0
  title : String := ""
  body : String := ""
  state : String := ""
  htmlURL : String := ""
  merged : Bool := false
  additions : Int := 0
  deletions : Int := 0
  commits : Int := 0
  user : BodyUser := {}
  mergedBy : Option BodyUser := none
  baseRef : String := ""
  baseSHA : String := ""
  headRef : String := ""
  headSHA : String := ""
deriving DecidableEq, Repr

/-- A webhook request body: the `json.Unmarshal` well-formedness bit, the
repository fields of the base view, and the four payload views. -/
structure WebhookBody where
  validJson : Bool := true
  repoOwnerLogin : String := ""
  repoName : String := ""
  push : BodyPush := {}
  release : BodyRelease := {}
  issue : BodyIssue := {}
  pr : BodyPullRequest := {}
deriving DecidableEq, Repr

/-- `WebhookHandler.parseEvent`: unmarshal the base view (error on malformed
JSON), then switch on the event type; recognized types unmarshal their view
(same well-formedness bit) and apply the action allow-list, returning
`none` for a disallowed action; an unrecognized type returns `none` without
error. -/
def parseEvent (eventType : String) (body : WebhookBody) :
    Except String (Option WebhookEvent) :=
  if ¬ body.validJson then .error "failed to parse base event"
  else
    let repoOwner := body.repoOwnerLogin
    let repoName := body.repoName
    if eventType = "push" then
      .ok (some
        { type := eventType, repoOwner := repoOwner, repoName := repoName
          payload := .push
            { ref := body.push.ref
              before := body.push.before
              after := body.push.after
              compare := body.push.compare
              pusher := { login := body.push.pusherName }
              commits := body.push.commits.map (fun c =>
                { sha := c.id, message := c.message, url := c.url,
                  author := { login := c.authorName },
                  added := c.added, removed := c.removed, modified := c.modified }) } })
    else if eventType = "release" then
      if body.release.action ≠ "published" then .ok none
      else .ok (some
        { type := eventType, repoOwner := repoOwner, repoName := repoName
          payload := .release
            { action := body.release.action
              tagName := body.release.tagName
              name := body.release.name
              body := body.release.body
              draft := body.release.draft
              prerelease := body.release.prerelease
              url := body.release.htmlURL
              author := { login := body.release.authorLogin,
                          avatarURL := body.release.authorAvatarURL,
                          url := body.release.authorHTMLURL } } })
    else if eventType = "issues" then
      if body.issue.action ≠ "opened" ∧ body.issue.action ≠ "closed" ∧
          body.issue.action ≠ "reopened" then .ok none
      else .ok (some
        { type := eventType, repoOwner := repoOwner, repoName := repoName
          payload := .issue
            { action := body.issue.action
              number := body.issue.number
              title := body.issue.title
              body := body.issue.body
              state := body.issue.state
              url := body.issue.htmlURL
              user := { login := body.issue.user.login,
                        avatarURL := body.issue.user.avatarURL,
                        url := body.issue.user.htmlURL }
              labels := body.issue.labels
              assignee := body.issue.assignee.map (fun a =>
                { login := a.login, avatarURL := a.avatarURL, url := a.htmlURL }) } })
    else if eventType = "pull_request" then
      if body.pr.action ≠ "opened" ∧ body.pr.action ≠ "closed" ∧
          body.pr.action ≠ "reopened" then .ok none
      else .ok (some
        { type := eventType, repoOwner := repoOwner, repoName := repoName
          payload := .pullRequest
            { action := body.pr.action
              number := body.pr.number
              title := body.pr.title
              body := body.pr.body
              state := body.pr.state
              url := body.pr.htmlURL
              merged := body.pr.merged
              mergedBy := body.pr.mergedBy.map (fun u =>
                { login := u.login, avatarURL := u.avatarURL, url := u.htmlURL })
              additions := body.pr.additions
              deletions := body.pr.deletions
              commits := body.pr.commits
              user := { login := body.pr.user.login,
                        avatarURL := body.pr.user.avatarURL,
                        url := body.pr.user.htmlURL }
              base := { ref := body.pr.baseRef, sha := body.pr.baseSHA }
              head := { ref := body.pr.headRef, sha := body.pr.headSHA } } })
    else .ok none

/-- An inbound webhook HTTP request.  `bodyReadable` models `io.ReadAll`
succeeding; `signatureOK` models the outcome of `verifySignature` (an
HMAC-SHA256 comparison, treated as an opaque boolean); `eventTypeHeader`
is the `X-GitHub-Event` header value (`""` when absent). -/
structure WebhookRequest where
  method : String
  bodyReadable : Bool := true
  signatureOK : Bool := true
  eventTypeHeader : String := ""
  body : WebhookBody := {}
deriving DecidableEq, Repr

/-- The observable outcome of `WebhookHandler.ServeHTTP`: the HTTP status
written, the event sent on the channel (if any), and whether an event was
dropped because the channel was full. -/
structure ServeResult where
  status : Nat
  emitted : Option WebhookEvent
  droppedFull : Bool
deriving DecidableEq, Repr

/-- `WebhookHandler.ServeHTTP`: non-POST → 405; unreadable body → 400; a
configured secret with a failing signature → 401; missing
`X-GitHub-Event` → 400; parse error → 400; otherwise 200, with the parsed
event (when there is one) sent on the channel unless it is full, in which
case it is dropped with a log line and the response is still 200. -/
def serveHTTP (secret : String) (channelFull : Bool) (r : WebhookRequest) : ServeResult :=
  if r.method ≠ "POST" then ⟨405, none, false⟩
  else if ¬ r.bodyReadable then ⟨400, none, false⟩
  else if secret ≠ "" ∧ ¬ r.signatureOK then ⟨401, none, false⟩
  else if r.eventTypeHeader = "" then ⟨400, none, false⟩
  else
    match parseEvent r.eventTypeHeader r.body with
    | .error _ => ⟨400, none, false⟩
    | .ok none => ⟨200, none, false⟩
    | .ok (some event) =>
      if channelFull then ⟨200, none, true⟩ else ⟨200, some event, false⟩

/-! ## Helper lemmas -/

theorem length_zero_eq_empty (s : String) (h : s.length = 0) : s = "" := by
  cases s with
  | mk data =>
    simp [String.length] at h
    simp [h]

theorem append_ne_empty_right (a b : String) (hb : b ≠ "") : a ++ b ≠ "" := by
  intro h
  have hl := congrArg String.length h
  rw [String.length_append] at hl
  have hz : ("" : String).length = 0 := rfl
  exact hb (length_zero_eq_empty b (by omega))

theorem append_ne_empty_left (a b : String) (ha : a ≠ "") : a ++ b ≠ "" := by
  intro h
  have hl := congrArg String.length h
  rw [String.length_append] at hl
  have hz : ("" : String).length = 0 := rfl
  exact ha (length_zero_eq_empty a (by omega))

theorem repoHeader_ne_empty (owner name : String) : repoHeader owner name ≠ "" := by
  apply append_ne_empty_right
  decide

/-- The notifier's message for any of the four payload kinds carries the
repository header, hence is never empty (so `HandleWebhookEvent` never takes
its empty-message early return on these events). -/
theorem buildMessage_ne_empty (e : WebhookEvent) : buildMessage e ≠ "" := by
  obtain ⟨ty, ro, rn, p⟩ := e
  cases p with
  | push pe =>
    show repoHeader ro rn ++ formatPushMessage pe ≠ ""
    exact append_ne_empty_left _ _ (repoHeader_ne_empty ro rn)
  | release re =>
    show repoHeader ro rn ++ formatReleaseMessage re ≠ ""
    exact append_ne_empty_left _ _ (repoHeader_ne_empty ro rn)
  | issue ie =>
    show repoHeader ro rn ++ formatIssueMessage ie ≠ ""
    exact append_ne_empty_left _ _ (repoHeader_ne_empty ro rn)
  | pullRequest pre =>
    show repoHeader ro rn ++ formatPRMessage pre ≠ ""
    exact append_ne_empty_left _ _ (repoHeader_ne_empty ro rn)

theorem mem_recordEventLedger_self (l : Ledger) (k : DedupKey) :
    k ∈ recordEventLedger l k := by
  simp only [recordEventLedger, recordEvent]
  split_ifs with h
  · exact h
  · simp

theorem mem_recordEventLedger_mono (l : Ledger) (k k' : DedupKey) (h : k ∈ l) :
    k ∈ recordEventLedger l k' := by
  simp only [recordEventLedger, recordEvent]
  split_ifs
  · exact h
  · simp [h]

theorem mem_foldl_of_mono {α : Type} (f : Ledger → α → Ledger)
    (hmono : ∀ acc x k, k ∈ acc → k ∈ f acc x)
    (xs : List α) (l : Ledger) (k : DedupKey) (hk : k ∈ l) : k ∈ xs.foldl f l := by
  induction xs generalizing l with
  | nil => exact hk
  | cons a rest ih => exact ih (f l a) (hmono l a k hk)

theorem mem_foldl_of_elem {α : Type} (f : Ledger → α → Ledger)
    (hmono : ∀ acc x k, k ∈ acc → k ∈ f acc x)
    (xs : List α) (l : Ledger) (x : α) (hx : x ∈ xs) (k : DedupKey)
    (hstep : ∀ acc, k ∈ f acc x) : k ∈ xs.foldl f l := by
  induction xs generalizing l with
  | nil => cases hx
  | cons a rest ih =>
    rcases List.mem_cons.mp hx with rfl | hx'
    · exact mem_foldl_of_mono f hmono rest (f l x) k (hstep l)
    · exact ih (f l a) hx'

theorem ne_of_length_ne {s t : String} (h : s.length ≠ t.length) : s ≠ t :=
  fun he => h (congrArg String.length he)

theorem idlen_ne (n : Int) (a pre suf : String)
    (h : a.length + 1 ≠ pre.length + suf.length) :
    toString n ++ "-" ++ a ≠ pre ++ toString n ++ suf := by
  intro he
  have hl := congrArg String.length he
  simp only [String.length_append] at hl
  have h1 : ("-" : String).length = 1 := by decide
  omega

theorem tag_ne_release_tag (t : String) : t ≠ "release-" ++ t := by
  intro he
  have hl := congrArg String.length he
  simp only [String.length_append] at hl
  have h1 : ("release-" : String).length = 8 := by decide
  omega

/-! ## Claim theorems -/

/-- C1, counterexample: for a published release with tag `v1.0.0`, the
webhook path's `Notifier.generateEventID` yields the bare tag `"v1.0.0"`,
while the poller keys the same release under
`pollerReleaseEventID "v1.0.0" = "release-v1.0.0"`; the two differ, so the
two ingestion paths do not produce the same eventId for the same release,
and the webhook derivation does not follow the `"release-" + tagName`
scheme. -/
theorem c1_counterexample :
    generateEventID ⟨"release", "acme", "widgets", .release { action := "published", tagName := "v1.0.0" }⟩ = "v1.0.0" ∧
    pollerReleaseEventID "v1.0.0" = "release-v1.0.0" ∧
    ("v1.0.0" : String) ≠ "release-v1.0.0" :=
  ⟨rfl, rfl, by decide⟩

/-- C1, amended: the webhook-path `generateEventID` derives push → commit
SHA (`After`), release → the bare `TagName`, and issue/pull_request →
`number + "-" + action`; the poller derives the spec's scheme
(`release-tag`, `issue-N-created/closed`, `pr-N-created/closed/merged`).
Hence the two ingestion paths agree on the eventId only for push: for
release the two ids always differ, and for issues and pull requests the
webhook id (under any allow-listed action) differs from every
lifecycle-phase id the poller uses. -/
theorem c1_amended_id_derivations :
    (∀ (owner name : String) (e : PushEvent),
      generateEventID ⟨"push", owner, name, .push e⟩ = e.after) ∧
    (∀ (owner name : String) (e : ReleaseEvent),
      generateEventID ⟨"release", owner, name, .release e⟩ = e.tagName ∧
      generateEventID ⟨"release", owner, name, .release e⟩ ≠ pollerReleaseEventID e.tagName) ∧
    (∀ (owner name : String) (e : IssueEvent),
      e.action = "opened" ∨ e.action = "closed" ∨ e.action = "reopened" →
      generateEventID ⟨"issues", owner, name, .issue e⟩ ≠ pollerIssueCreatedID e.number ∧
      generateEventID ⟨"issues", owner, name, .issue e⟩ ≠ pollerIssueClosedID e.number) ∧
    (∀ (owner name : String) (e : PullRequestEvent),
      e.action = "opened" ∨ e.action = "closed" ∨ e.action = "reopened" →
      generateEventID ⟨"pull_request", owner, name, .pullRequest e⟩ ≠ pollerPRCreatedID e.number ∧
      generateEventID ⟨"pull_request", owner, name, .pullRequest e⟩ ≠ pollerPRClosedID e.number ∧
      generateEventID ⟨"pull_request", owner, name, .pullRequest e⟩ ≠ pollerPRMergedID e.number) := by
  refine ⟨fun _ _ _ => rfl, fun _ _ e => ⟨rfl, tag_ne_release_tag e.tagName⟩, ?_, ?_⟩
  · intro owner name e ha
    constructor
    · show toString e.number ++ "-" ++ e.action ≠ pollerIssueCreatedID e.number
      rcases ha with ha | ha | ha <;> rw [ha] <;>
        exact idlen_ne e.number _ "issue-" "-created" (by decide)
    · show toString e.number ++ "-" ++ e.action ≠ pollerIssueClosedID e.number
      rcases ha with ha | ha | ha <;> rw [ha] <;>
        exact idlen_ne e.number _ "issue-" "-closed" (by decide)
  · intro owner name e ha
    refine ⟨?_, ?_, ?_⟩
    · show toString e.number ++ "-" ++ e.action ≠ pollerPRCreatedID e.number
      rcases ha with ha | ha | ha <;> rw [ha] <;>
        exact idlen_ne e.number _ "pr-" "-created" (by decide)
    · show toString e.number ++ "-" ++ e.action ≠ pollerPRClosedID e.number
      rcases ha with ha | ha | ha <;> rw [ha] <;>
        exact idlen_ne e.number _ "pr-" "-closed" (by decide)
    · show toString e.number ++ "-" ++ e.action ≠ pollerPRMergedID e.number
      rcases ha with ha | ha | ha <;> rw [ha] <;>
        exact idlen_ne e.number _ "pr-" "-merged" (by decide)

/-- C1 witness for the amended theorem's hypotheses: issue action `"opened"`
is allow-listed and the webhook id `"42-opened"` differs from the poller's
`"issue-42-created"` and `"issue-42-closed"`. -/
theorem c1_amended_witness :
    (("opened" : String) = "opened" ∨ ("opened" : String) = "closed" ∨
      ("opened" : String) = "reopened") ∧
    (generateEventID ⟨"issues", "acme", "widgets", .issue { action := "opened", number := 42 }⟩ ≠ pollerIssueCreatedID 42 ∧
      generateEventID ⟨"issues", "acme", "widgets", .issue { action := "opened", number := 42 }⟩ ≠ pollerIssueClosedID 42) :=
  ⟨Or.inl rfl,
    c1_amended_id_derivations.2.2.1 "acme" "widgets"
      { action := "opened", number := 42 } (Or.inl rfl)⟩

/-- C5, counterexample: the Go `RecordEvent` returns only an `error`, and on
a duplicate insert the `INSERT OR IGNORE` succeeds, so the second call
returns exactly what the first call returned (a nil error).  The caller is
therefore not told `alreadyPresent` — the return value of the duplicate
call is indistinguishable from the first call's. -/
theorem c5_counterexample :
    (recordEvent (recordEvent [] ⟨"acme", "widgets", "push", "abc123"⟩).1 ⟨"acme", "widgets", "push", "abc123"⟩).2 =
      (recordEvent ([] : Ledger) ⟨"acme", "widgets", "push", "abc123"⟩).2 ∧
    (recordEvent ([] : Ledger) ⟨"acme", "widgets", "push", "abc123"⟩).2 = none := by
  decide

/-- C5, amended: for every DedupKey, calling `RecordEvent` twice leaves the
ledger state identical to calling it once, and the duplicate call does not
error (both calls return a nil error); the code however reports no
inserted/alreadyPresent distinction to its caller. -/
theorem c5_amended_idempotent_commit (l : Ledger) (k : DedupKey) :
    (recordEvent (recordEvent l k).1 k).1 = (recordEvent l k).1 ∧
    (recordEvent (recordEvent l k).1 k).2 = none ∧
    (recordEvent l k).2 = none := by
  refine ⟨?_, rfl, rfl⟩
  by_cases h : k ∈ l
  · simp [recordEvent, h]
  · simp [recordEvent, h]

/-- C10: a subscription whose stored `Events` JSON fails to parse as a JSON
array enables every event type in the notifier's filter, so that subscriber
receives notifications for all event kinds rather than none. -/
theorem c10_unparseable_filter_enables_all (sub : Subscription)
    (h : sub.eventsParse = none) (eventType : String) :
    isEventEnabled sub eventType = true := by
  simp [isEventEnabled, h]

/-- C10 witness: a concrete subscription with an unparseable `Events` column
is enabled for the `push` kind. -/
theorem c10_witness :
    ({ chatId := 7, eventsParse := none } : Subscription).eventsParse = none ∧
    isEventEnabled { chatId := 7, eventsParse := none } "push" = true :=
  ⟨rfl, c10_unparseable_filter_enables_all { chatId := 7, eventsParse := none } rfl "push"⟩

/-- Evaluation of `HandleWebhookEvent` on a non-empty subscriber list: the
ledger-lookup outcome alone decides between the early return and the
deliver-and-record path, because the built message is never empty for the
four payload kinds. -/
theorem handleWebhookEvent_cons (dbFails : Bool) (s : Subscription)
    (ss : List Subscription) (l : Ledger) (ev : WebhookEvent) :
    handleWebhookEvent dbFails (s :: ss) l ev =
      if (isEventProcessed dbFails l (dedupKeyOf ev)).1 then ⟨l, []⟩
      else ⟨recordEventLedger l (dedupKeyOf ev),
        ((s :: ss).filter (fun sub => isEventEnabled sub ev.type)).map
          (fun sub => sub.chatId)⟩ := by
  unfold handleWebhookEvent
  rw [show (s :: ss : List Subscription).isEmpty = false from rfl]
  simp only [Bool.false_eq_true, if_false]
  split_ifs with h hm
  · rfl
  · exact absurd hm (buildMessage_ne_empty ev)
  · rfl

/-- Whatever the lookup outcome, the event's dedup key is in the ledger
after `HandleWebhookEvent` runs with at least one subscriber: either the
lookup already found it, or the handler records it at the end. -/
theorem handle_ledger_mem (dbFails : Bool) (s : Subscription) (ss : List Subscription)
    (l : Ledger) (ev : WebhookEvent) :
    dedupKeyOf ev ∈ (handleWebhookEvent dbFails (s :: ss) l ev).ledger := by
  rw [handleWebhookEvent_cons]
  split_ifs with h
  · show dedupKeyOf ev ∈ l
    cases dbFails with
    | true => simp [isEventProcessed] at h
    | false => simpa [isEventProcessed] using h
  · exact mem_recordEventLedger_self l _

/-- `pollCommits` (without a store failure) never emits an event for a SHA
whose push key is already in the ledger. -/
theorem pollCommits_skips_recorded (l : Ledger) (owner name sha : String)
    (h : (⟨owner, name, "push", sha⟩ : DedupKey) ∈ l)
    (commits : List RepoCommit) (ev : WebhookEvent)
    (hev : ev ∈ pollCommits false l owner name commits) :
    generateEventID ev ≠ sha := by
  simp only [pollCommits, List.mem_filterMap] at hev
  obtain ⟨c, hc, hfn⟩ := hev
  by_cases h1 : c.sha = ""
  · rw [if_pos h1] at hfn
    exact absurd hfn (by simp)
  · rw [if_neg h1] at hfn
    by_cases h2 : (isEventProcessed false l ⟨owner, name, "push", c.sha⟩).1 = true
    · rw [if_pos h2] at hfn
      exact absurd hfn (by simp)
    · rw [if_neg h2] at hfn
      have he := Option.some.inj hfn
      intro heq
      rw [← he] at heq
      have hsha : c.sha = sha := heq
      rw [hsha] at h2
      exact h2 (by simpa [isEventProcessed] using h)

/-- C2: if a push event with head SHA `pe.after` is handled on the webhook
path with at least one subscriber, its ledger key
`(owner, name, "push", sha)` is present afterwards (either the handler's
lookup already found it, or the handler records it), and a later poller
commit scan against that ledger never emits an event for that SHA — the
membership check in `pollCommits` prevents the second emission, so only the
webhook path's notification is delivered for the SHA. -/
theorem c2_cross_source_push_dedup (owner name : String) (pe : PushEvent)
    (s : Subscription) (ss : List Subscription) (l : Ledger) :
    (⟨owner, name, "push", pe.after⟩ : DedupKey) ∈
      (handleWebhookEvent false (s :: ss) l ⟨"push", owner, name, .push pe⟩).ledger ∧
    ∀ (commits : List RepoCommit) (ev : WebhookEvent),
      ev ∈ pollCommits false
        (handleWebhookEvent false (s :: ss) l ⟨"push", owner, name, .push pe⟩).ledger
        owner name commits →
      generateEventID ev ≠ pe.after := by
  have hmem := handle_ledger_mem false s ss l ⟨"push", owner, name, .push pe⟩
  exact ⟨hmem, fun commits ev hev =>
    pollCommits_skips_recorded _ owner name pe.after hmem commits ev hev⟩

/-- Concrete webhook-path scenario for the C2 witness: one subscriber, an
empty initial ledger, a handled push with SHA `abc`. -/
def c2SubW : Subscription := { chatId := 7, eventsParse := none }

/-- The handled push payload of the C2 witness scenario. -/
def c2PushW : PushEvent :=
  { ref := "refs/heads/main", after := "abc", pusher := { login := "alice" } }

/-- The ledger after the webhook path handled the C2 witness push. -/
def c2LedgerW : Ledger :=
  (handleWebhookEvent false [c2SubW] [] ⟨"push", "acme", "widgets", .push c2PushW⟩).ledger

/-- A commit with a different SHA, later seen by the poller in the C2
witness scenario. -/
def c2CommitW : RepoCommit := { sha := "def" }

/-- The event the poller emits for that other commit. -/
def c2EvW : WebhookEvent :=
  ⟨"push", "acme", "widgets", .push
    { ref := "refs/heads/main", after := "def", pusher := { login := "" },
      commits := [{ sha := "def", message := "", url := "", author := { login := "" } }],
      compare := "" }⟩

/-- C2 witness: in the concrete scenario the poller's scan does emit for an
unrecorded SHA, and the emitted event's id differs from the SHA the webhook
path recorded. -/
theorem c2_witness :
    c2EvW ∈ pollCommits false c2LedgerW "acme" "widgets" [c2CommitW] ∧
    generateEventID c2EvW ≠ c2PushW.after :=
  ⟨by decide,
    (c2_cross_source_push_dedup "acme" "widgets" c2PushW c2SubW [] []).2
      [c2CommitW] c2EvW (by decide)⟩

/-- C6: a ledger membership check that returns an error is treated as
not-yet-processed on both ingestion paths.  The notifier (with at least one
subscriber) still builds the message, attempts delivery to every
filter-enabled subscriber and commits the key to the ledger; the poller's
commit scan still emits an event for every commit with a non-empty SHA,
whatever the ledger contains. -/
theorem c6_lookup_error_fail_open :
    (∀ (s : Subscription) (ss : List Subscription) (l : Ledger) (ev : WebhookEvent),
      handleWebhookEvent true (s :: ss) l ev =
        ⟨recordEventLedger l (dedupKeyOf ev),
          ((s :: ss).filter (fun sub => isEventEnabled sub ev.type)).map
            (fun sub => sub.chatId)⟩) ∧
    (∀ (l : Ledger) (owner name : String) (commits : List RepoCommit) (c : RepoCommit),
      c ∈ commits → c.sha ≠ "" →
      ∃ ev ∈ pollCommits true l owner name commits, generateEventID ev = c.sha) := by
  constructor
  · intro s ss l ev
    rw [handleWebhookEvent_cons]
    rw [if_neg]
    simp [isEventProcessed]
  · intro l owner name commits c hc hsha
    refine ⟨⟨"push", owner, name, .push
      { ref := "refs/heads/main", after := c.sha, pusher := { login := c.authorLogin },
        commits := [{ sha := c.sha, message := c.commitMessage, url := c.htmlURL,
                      author := { login := c.commitAuthorName } }],
        compare := c.htmlURL }⟩, ?_, rfl⟩
    show _ ∈ commits.filterMap _
    exact List.mem_filterMap.mpr ⟨c, hc, by simp [isEventProcessed, hsha]⟩

/-- C6 witness: with a failing store lookup, a commit whose key is in fact
already in the ledger is still emitted by the poller (fail-open), and the
notifier still delivers and records. -/
theorem c6_witness :
    (({ sha := "abc" } : RepoCommit) ∈ ([{ sha := "abc" }] : List RepoCommit) ∧
      ({ sha := "abc" } : RepoCommit).sha ≠ "") ∧
    ∃ ev ∈ pollCommits true [⟨"acme", "widgets", "push", "abc"⟩] "acme" "widgets"
        [{ sha := "abc" }], generateEventID ev = ({ sha := "abc" } : RepoCommit).sha :=
  ⟨⟨by decide, by decide⟩,
    c6_lookup_error_fail_open.2 [⟨"acme", "widgets", "push", "abc"⟩] "acme" "widgets"
      [{ sha := "abc" }] { sha := "abc" } (by decide) (by decide)⟩

theorem mono_step_commit (owner name : String) (acc : Ledger) (x : RepoCommit)
    (k : DedupKey) (hk : k ∈ acc) :
    k ∈ (if x.sha ≠ "" then recordEventLedger acc ⟨owner, name, "push", x.sha⟩ else acc) := by
  split_ifs <;>
    first
      | exact hk
      | exact mem_recordEventLedger_mono _ _ _ hk

theorem mono_step_release (owner name : String) (acc : Ledger) (x : RepoRelease)
    (k : DedupKey) (hk : k ∈ acc) :
    k ∈ (if ¬ x.draft then
      recordEventLedger acc ⟨owner, name, "release", pollerReleaseEventID x.tagName⟩
    else acc) := by
  split_ifs <;>
    first
      | exact hk
      | exact mem_recordEventLedger_mono _ _ _ hk

theorem mono_step_issue (owner name : String) (acc : Ledger) (x : RepoIssue)
    (k : DedupKey) (hk : k ∈ acc) :
    k ∈ (if ¬ x.isPullRequest then
      let acc' := recordEventLedger acc ⟨owner, name, "issues", pollerIssueCreatedID x.number⟩
      if x.state = "closed" then
        recordEventLedger acc' ⟨owner, name, "issues", pollerIssueClosedID x.number⟩
      else acc'
    else acc) := by
  dsimp only
  split_ifs <;>
    first
      | exact hk
      | exact mem_recordEventLedger_mono _ _ _ hk
      | exact mem_recordEventLedger_mono _ _ _ (mem_recordEventLedger_mono _ _ _ hk)

theorem mono_step_pr (owner name : String) (acc : Ledger) (x : RepoPullRequest)
    (k : DedupKey) (hk : k ∈ acc) :
    k ∈ (let acc' :=
        recordEventLedger acc ⟨owner, name, "pull_request", pollerPRCreatedID x.number⟩
      if x.state = "closed" then
        recordEventLedger acc'
          ⟨owner, name, "pull_request",
            if x.merged then pollerPRMergedID x.number else pollerPRClosedID x.number⟩
      else acc') := by
  dsimp only
  split_ifs <;>
    first
      | exact mem_recordEventLedger_mono _ _ _ hk
      | exact mem_recordEventLedger_mono _ _ _ (mem_recordEventLedger_mono _ _ _ hk)

/-- C9: the poller's initialization phase sends nothing on the event channel
(the Go function contains no channel send), and it seeds into the ledger the
push key of every listed commit with a non-empty SHA, the `release-tag` key
of every listed non-draft release, the `issue-N-created` key of every listed
non-PR issue plus `issue-N-closed` when the issue is already closed, and the
`pr-N-created` key of every listed pull request plus `pr-N-merged` (when
merged) or `pr-N-closed` when the pull request is already closed. -/
theorem c9_init_seeds_without_emitting (l : Ledger) (owner name : String)
    (commits : List RepoCommit) (releases : List RepoRelease)
    (issues : List RepoIssue) (prs : List RepoPullRequest) :
    (recordExistingEvents l owner name commits releases issues prs).2 = [] ∧
    (∀ c ∈ commits, c.sha ≠ "" →
      (⟨owner, name, "push", c.sha⟩ : DedupKey) ∈
        (recordExistingEvents l owner name commits releases issues prs).1) ∧
    (∀ r ∈ releases, ¬ r.draft →
      (⟨owner, name, "release", pollerReleaseEventID r.tagName⟩ : DedupKey) ∈
        (recordExistingEvents l owner name commits releases issues prs).1) ∧
    (∀ i ∈ issues, ¬ i.isPullRequest →
      (⟨owner, name, "issues", pollerIssueCreatedID i.number⟩ : DedupKey) ∈
        (recordExistingEvents l owner name commits releases issues prs).1 ∧
      (i.state = "closed" →
        (⟨owner, name, "issues", pollerIssueClosedID i.number⟩ : DedupKey) ∈
          (recordExistingEvents l owner name commits releases issues prs).1)) ∧
    (∀ p ∈ prs,
      (⟨owner, name, "pull_request", pollerPRCreatedID p.number⟩ : DedupKey) ∈
        (recordExistingEvents l owner name commits releases issues prs).1 ∧
      (p.state = "closed" →
        (⟨owner, name, "pull_request",
          if p.merged then pollerPRMergedID p.number else pollerPRClosedID p.number⟩ :
            DedupKey) ∈
          (recordExistingEvents l owner name commits releases issues prs).1)) := by
  refine ⟨rfl, ?_, ?_, ?_, ?_⟩
  · intro c hc hsha
    simp only [recordExistingEvents]
    apply mem_foldl_of_mono _ (mono_step_pr owner name)
    apply mem_foldl_of_mono _ (mono_step_issue owner name)
    apply mem_foldl_of_mono _ (mono_step_release owner name)
    apply mem_foldl_of_elem _ (mono_step_commit owner name) commits l c hc
    intro acc
    rw [if_pos hsha]
    exact mem_recordEventLedger_self _ _
  · intro r hr hd
    simp only [recordExistingEvents]
    apply mem_foldl_of_mono _ (mono_step_pr owner name)
    apply mem_foldl_of_mono _ (mono_step_issue owner name)
    apply mem_foldl_of_elem _ (mono_step_release owner name) releases _ r hr
    intro acc
    rw [if_pos hd]
    exact mem_recordEventLedger_self _ _
  · intro i hi hpr
    constructor
    · simp only [recordExistingEvents]
      apply mem_foldl_of_mono _ (mono_step_pr owner name)
      apply mem_foldl_of_elem _ (mono_step_issue owner name) issues _ i hi
      intro acc
      rw [if_pos hpr]
      dsimp only
      split_ifs <;>
        first
          | exact mem_recordEventLedger_self _ _
          | exact mem_recordEventLedger_mono _ _ _ (mem_recordEventLedger_self _ _)
    · intro hclosed
      simp only [recordExistingEvents]
      apply mem_foldl_of_mono _ (mono_step_pr owner name)
      apply mem_foldl_of_elem _ (mono_step_issue owner name) issues _ i hi
      intro acc
      rw [if_pos hpr]
      dsimp only
      rw [if_pos hclosed]
      exact mem_recordEventLedger_self _ _
  · intro p hp
    constructor
    · simp only [recordExistingEvents]
      apply mem_foldl_of_elem _ (mono_step_pr owner name) prs _ p hp
      intro acc
      dsimp only
      split_ifs <;>
        first
          | exact mem_recordEventLedger_self _ _
          | exact mem_recordEventLedger_mono _ _ _ (mem_recordEventLedger_self _ _)
    · intro hclosed
      simp only [recordExistingEvents]
      apply mem_foldl_of_elem _ (mono_step_pr owner name) prs _ p hp
      intro acc
      dsimp only
      rw [if_pos hclosed]
      exact mem_recordEventLedger_self _ _

/-- Initialization-phase snapshot for the C9 witness: one commit, one
non-draft release, one already-closed issue, one already-merged pull
request. -/
def c9CommitW : RepoCommit := { sha := "abc" }

/-- The release of the C9 witness snapshot. -/
def c9RelW : RepoRelease := { tagName := "v1" }

/-- The already-closed issue of the C9 witness snapshot. -/
def c9IssueW : RepoIssue := { number := 42, state := "closed" }

/-- The already-merged pull request of the C9 witness snapshot. -/
def c9PRW : RepoPullRequest := { number := 5, state := "closed", merged := true }

/-- C9 witness: on the concrete snapshot the initialization phase emits no
events and the ledger afterwards holds the push, release, issue-created,
issue-closed, pr-created and pr-merged keys. -/
theorem c9_witness :
    (recordExistingEvents [] "acme" "widgets" [c9CommitW] [c9RelW] [c9IssueW] [c9PRW]).2 = [] ∧
    (⟨"acme", "widgets", "push", "abc"⟩ : DedupKey) ∈
      (recordExistingEvents [] "acme" "widgets" [c9CommitW] [c9RelW] [c9IssueW] [c9PRW]).1 ∧
    (⟨"acme", "widgets", "issues", pollerIssueClosedID 42⟩ : DedupKey) ∈
      (recordExistingEvents [] "acme" "widgets" [c9CommitW] [c9RelW] [c9IssueW] [c9PRW]).1 :=
  ⟨(c9_init_seeds_without_emitting [] "acme" "widgets"
      [c9CommitW] [c9RelW] [c9IssueW] [c9PRW]).1,
    (c9_init_seeds_without_emitting [] "acme" "widgets"
      [c9CommitW] [c9RelW] [c9IssueW] [c9PRW]).2.1 c9CommitW (by decide) (by decide),
    ((c9_init_seeds_without_emitting [] "acme" "widgets"
      [c9CommitW] [c9RelW] [c9IssueW] [c9PRW]).2.2.2.1 c9IssueW (by decide) (by decide)).2
      (by decide)⟩

/-- C4: once a repository's steady-state tick observes only pre-epoch
upstream activity — every listed commit has a commit time before the watch
epoch, which together with the `Since: startTime` request contract makes
the commit listing empty; every listed release was published before the
epoch; every listed issue and pull request was created before the epoch and
closed (if at all) no later than it — the tick emits zero events, for any
ledger contents and so in particular after `recordExistingEvents` over any
initialization snapshot, and whether or not the ledger lookups fail. -/
theorem c4_no_backlog (dbFails : Bool) (startTime : Int) (l0 : Ledger) (owner name : String)
    (cs0 : List RepoCommit) (rs0 : List RepoRelease)
    (is0 : List RepoIssue) (ps0 : List RepoPullRequest)
    (commits : List RepoCommit) (releases : List RepoRelease)
    (issues : List RepoIssue) (prs : List RepoPullRequest)
    (hsince : ∀ c ∈ commits, startTime ≤ c.commitDate)
    (hcommits : ∀ c ∈ commits, c.commitDate < startTime)
    (hreleases : ∀ r ∈ releases, r.publishedAt < startTime)
    (hissues : ∀ i ∈ issues, i.createdAt < startTime ∧ i.closedAt ≤ startTime)
    (hprs : ∀ p ∈ prs, p.createdAt < startTime ∧ p.closedAt ≤ startTime) :
    pollRepo dbFails (recordExistingEvents l0 owner name cs0 rs0 is0 ps0).1
      startTime owner name commits releases issues prs = [] := by
  have hcnil : commits = [] := by
    cases commits with
    | nil => rfl
    | cons c cs =>
      have h1 := hsince c (by simp)
      have h2 := hcommits c (by simp)
      omega
  subst hcnil
  unfold pollRepo
  have hc : pollCommits dbFails (recordExistingEvents l0 owner name cs0 rs0 is0 ps0).1
      owner name [] = [] := rfl
  have hr : pollReleases dbFails (recordExistingEvents l0 owner name cs0 rs0 is0 ps0).1
      startTime owner name releases = [] := by
    apply List.filterMap_eq_nil_iff.mpr
    intro r hr
    have := hreleases r hr
    by_cases hd : r.draft
    · rw [if_pos hd]
    · rw [if_neg hd, if_pos this]
  have hi : pollIssues dbFails (recordExistingEvents l0 owner name cs0 rs0 is0 ps0).1
      startTime owner name issues = [] := by
    apply List.filterMap_eq_nil_iff.mpr
    intro i hi
    obtain ⟨hcr, hcl⟩ := hissues i hi
    by_cases hpr : i.isPullRequest
    · rw [if_pos hpr]
    · rw [if_neg hpr, if_pos hcr]
      by_cases hst : i.state = "closed"
      · rw [if_pos hst, if_neg]
        intro hand
        exact absurd hand.2 (by omega)
      · rw [if_neg hst]
  have hp : pollPullRequests dbFails (recordExistingEvents l0 owner name cs0 rs0 is0 ps0).1
      startTime owner name prs = [] := by
    apply List.filterMap_eq_nil_iff.mpr
    intro p hp
    obtain ⟨hcr, hcl⟩ := hprs p hp
    rw [if_pos hcr]
    by_cases hst : p.state = "closed"
    · rw [if_pos hst, if_neg]
      intro hand
      exact absurd hand.2 (by omega)
    · rw [if_neg hst]
  rw [hc, hr, hi, hp]
  rfl

/-- Pre-epoch release for the C4 witness tick. -/
def c4RelW : RepoRelease := { tagName := "v1", publishedAt := 3 }

/-- Pre-epoch closed issue for the C4 witness tick. -/
def c4IssueW : RepoIssue := { number := 42, state := "closed", createdAt := 1, closedAt := 4 }

/-- Pre-epoch open pull request for the C4 witness tick. -/
def c4PRW : RepoPullRequest := { number := 5, state := "open", createdAt := 2 }

/-- C4 witness: at epoch 10, a tick whose listings hold only the pre-epoch
release, issue and pull request (and no commits, per the `Since` contract)
emits zero events after initialization over the same snapshot. -/
theorem c4_witness :
    (∀ r ∈ ([c4RelW] : List RepoRelease), r.publishedAt < 10) ∧
    (∀ i ∈ ([c4IssueW] : List RepoIssue), i.createdAt < 10 ∧ i.closedAt ≤ 10) ∧
    (∀ p ∈ ([c4PRW] : List RepoPullRequest), p.createdAt < 10 ∧ p.closedAt ≤ 10) ∧
    pollRepo false (recordExistingEvents [] "acme" "widgets" [] [c4RelW] [c4IssueW] [c4PRW]).1
      10 "acme" "widgets" [] [c4RelW] [c4IssueW] [c4PRW] = [] :=
  ⟨by decide, by decide, by decide,
    c4_no_backlog false 10 [] "acme" "widgets" [] [c4RelW] [c4IssueW] [c4PRW]
      [] [c4RelW] [c4IssueW] [c4PRW]
      (by simp) (by simp) (by decide) (by decide) (by decide)⟩

/-- C3 scenario: issue #42 exists and is open at initialization time
(created at instant 0, before the watch epoch 10). -/
def c3IssueOpenW : RepoIssue := { number := 42, createdAt := 0, state := "open" }

/-- C3 scenario: the same issue as later listed, closed at instant 20
(after the epoch). -/
def c3IssueClosedW : RepoIssue :=
  { number := 42, createdAt := 0, state := "closed", closedAt := 20 }

/-- C3 scenario: the repository's one subscriber. -/
def c3SubW : Subscription := { chatId := 9, eventsParse := none }

/-- C3 scenario: the ledger after initialization saw issue #42 still open
(so only `issue-42-created` was seeded). -/
def c3Ledger0 : Ledger :=
  (recordExistingEvents [] "acme" "widgets" [] [] [c3IssueOpenW] []).1

/-- C3 scenario: the poller's issue-feed emissions on the first
steady-state tick that lists the now-closed issue. -/
def c3Tick1 : List WebhookEvent :=
  pollIssues false c3Ledger0 10 "acme" "widgets" [c3IssueClosedW]

/-- C3 scenario: the ledger after the notifier consumed the first tick's
emissions (it records each event under its own `generateEventID` key,
`"42-closed"`, not the `"issue-42-closed"` key the poller checks). -/
def c3Ledger1 : Ledger :=
  List.foldl (fun l ev => (handleWebhookEvent false [c3SubW] l ev).ledger) c3Ledger0 c3Tick1

/-- C3 scenario: the poller's issue-feed emissions on the second
steady-state tick, which lists the closed issue again (its update time is
after the epoch, so the `Since` listing keeps returning it). -/
def c3Tick2 : List WebhookEvent :=
  pollIssues false c3Ledger1 10 "acme" "widgets" [c3IssueClosedW]

/-- C3, evaluation at the failing input (code bug): an issue created before
the watch epoch and closed after it is emitted as a `closed` event (never
`opened`) on the first tick — but the `issue-42-closed` key the poller
checks is never recorded by anyone (the consuming notifier records
`42-closed` instead), so the second tick emits the same `closed` event
again: two emissions across two ticks, not exactly one. -/
theorem c3_closed_issue_reemitted_every_tick :
    c3Tick1 = [⟨"issues", "acme", "widgets",
      .issue { action := "closed", number := 42, state := "closed" }⟩] ∧
    c3Tick2 = c3Tick1 ∧
    (c3Tick1 ++ c3Tick2).length = 2 := by
  decide

/-- C7: on a well-formed body, `parseEvent` never returns an error — it
returns `ok` of at most one event (the codomain carries one optional
event, as the Go function returns a single `*WebhookEvent`) — and it
returns an event exactly for: `push` with any payload, `release` with
action `published`, `issues` with action in
`opened`/`closed`/`reopened`, and `pull_request` with action in
`opened`/`closed`/`reopened`; every other recognized type/action
combination and every unrecognized event type yields `ok none`
(ignored). -/
theorem c7_parse_allowlist (eventType : String) (body : WebhookBody)
    (hvalid : body.validJson = true) :
    (∃ o, parseEvent eventType body = .ok o) ∧
    ((∃ ev, parseEvent eventType body = .ok (some ev)) ↔
      (eventType = "push" ∨
        (eventType = "release" ∧ body.release.action = "published") ∨
        (eventType = "issues" ∧ (body.issue.action = "opened" ∨
          body.issue.action = "closed" ∨ body.issue.action = "reopened")) ∨
        (eventType = "pull_request" ∧ (body.pr.action = "opened" ∨
          body.pr.action = "closed" ∨ body.pr.action = "reopened")))) := by
  rw [parseEvent, if_neg (by simp [hvalid])]
  by_cases h1 : eventType = "push"
  · rw [if_pos h1]
    exact ⟨⟨_, rfl⟩, by
      constructor
      · intro _
        exact Or.inl h1
      · intro _
        exact ⟨_, rfl⟩⟩
  · rw [if_neg h1]
    by_cases h2 : eventType = "release"
    · rw [if_pos h2]
      by_cases ha : body.release.action ≠ "published"
      · rw [if_pos ha]
        refine ⟨⟨_, rfl⟩, ?_⟩
        constructor
        · intro ⟨ev, heq⟩
          cases heq
        · intro h
          rcases h with h | ⟨h, hp⟩ | ⟨h, hp⟩ | ⟨h, hp⟩ <;> first
            | exact absurd h (by rw [h2]; decide)
            | exact absurd hp ha
      · rw [if_neg ha]
        refine ⟨⟨_, rfl⟩, ?_⟩
        constructor
        · intro _
          exact Or.inr (Or.inl ⟨h2, not_not.mp ha⟩)
        · intro _
          exact ⟨_, rfl⟩
    · rw [if_neg h2]
      by_cases h3 : eventType = "issues"
      · rw [if_pos h3]
        by_cases ha : body.issue.action ≠ "opened" ∧ body.issue.action ≠ "closed" ∧
            body.issue.action ≠ "reopened"
        · rw [if_pos ha]
          refine ⟨⟨_, rfl⟩, ?_⟩
          constructor
          · intro ⟨ev, heq⟩
            cases heq
          · intro h
            rcases h with h | ⟨h, hp⟩ | ⟨h, hp⟩ | ⟨h, hp⟩ <;> first
              | exact absurd h (by rw [h3]; decide)
              | exact absurd hp (by tauto)
        · rw [if_neg ha]
          refine ⟨⟨_, rfl⟩, ?_⟩
          constructor
          · intro _
            exact Or.inr (Or.inr (Or.inl ⟨h3, by tauto⟩))
          · intro _
            exact ⟨_, rfl⟩
      · rw [if_neg h3]
        by_cases h4 : eventType = "pull_request"
        · rw [if_pos h4]
          by_cases ha : body.pr.action ≠ "opened" ∧ body.pr.action ≠ "closed" ∧
              body.pr.action ≠ "reopened"
          · rw [if_pos ha]
            refine ⟨⟨_, rfl⟩, ?_⟩
            constructor
            · intro ⟨ev, heq⟩
              cases heq
            · intro h
              rcases h with h | ⟨h, hp⟩ | ⟨h, hp⟩ | ⟨h, hp⟩ <;> first
                | exact absurd h (by rw [h4]; decide)
                | exact absurd hp (by tauto)
          · rw [if_neg ha]
            refine ⟨⟨_, rfl⟩, ?_⟩
            constructor
            · intro _
              exact Or.inr (Or.inr (Or.inr ⟨h4, by tauto⟩))
            · intro _
              exact ⟨_, rfl⟩
        · rw [if_neg h4]
          refine ⟨⟨_, rfl⟩, ?_⟩
          constructor
          · intro ⟨ev, heq⟩
            cases heq
          · intro h
            rcases h with h | ⟨h, hp⟩ | ⟨h, hp⟩ | ⟨h, hp⟩ <;> tauto

/-- C7 witness: a well-formed `issues` body with the disallowed action
`assigned` parses to `ok none`: ignored, not an error and not an event. -/
theorem c7_witness :
    ({ issue := { action := "assigned" } } : WebhookBody).validJson = true ∧
    (∃ o, parseEvent "issues" { issue := { action := "assigned" } } = .ok o) ∧
    ¬ ∃ ev, parseEvent "issues" { issue := { action := "assigned" } } = .ok (some ev) :=
  ⟨rfl,
    (c7_parse_allowlist "issues" { issue := { action := "assigned" } } rfl).1,
    fun hev =>
      by
        have h := (c7_parse_allowlist "issues" { issue := { action := "assigned" } } rfl).2.mp hev
        revert h
        decide⟩

/-- Reduction of `ServeHTTP` once the method, body, signature and header
guards pass: the response is decided by the parse result and the channel. -/
theorem serveHTTP_post (secret : String) (channelFull : Bool) (r : WebhookRequest)
    (h1 : r.method = "POST") (h2 : r.bodyReadable = true)
    (h3 : secret = "" ∨ r.signatureOK = true) (h4 : r.eventTypeHeader ≠ "") :
    serveHTTP secret channelFull r =
      match parseEvent r.eventTypeHeader r.body with
      | .error _ => ⟨400, none, false⟩
      | .ok none => ⟨200, none, false⟩
      | .ok (some event) =>
        if channelFull then ⟨200, none, true⟩ else ⟨200, some event, false⟩ := by
  rw [serveHTTP, if_neg (by simp [h1]), if_neg (by simp [h2]),
    if_neg (by rcases h3 with h | h <;> simp [h]), if_neg h4]

/-- C8: the webhook handler's response status is 405 on a non-POST method;
on POST it is 400 for an unreadable body, else 401 when a secret is
configured and the signature fails, else 400 for a missing
`X-GitHub-Event` header or a malformed payload, and 200 in every remaining
case — an ignored event yields 200 with nothing sent, and a full channel
yields 200 with the event dropped (and the drop observable). -/
theorem c8_response_determination (secret : String) (channelFull : Bool)
    (r : WebhookRequest) :
    (r.method ≠ "POST" → serveHTTP secret channelFull r = ⟨405, none, false⟩) ∧
    (r.method = "POST" → r.bodyReadable = false →
      serveHTTP secret channelFull r = ⟨400, none, false⟩) ∧
    (r.method = "POST" → r.bodyReadable = true → secret ≠ "" → r.signatureOK = false →
      serveHTTP secret channelFull r = ⟨401, none, false⟩) ∧
    (r.method = "POST" → r.bodyReadable = true → (secret = "" ∨ r.signatureOK = true) →
      r.eventTypeHeader = "" → serveHTTP secret channelFull r = ⟨400, none, false⟩) ∧
    (r.method = "POST" → r.bodyReadable = true → (secret = "" ∨ r.signatureOK = true) →
      r.eventTypeHeader ≠ "" → r.body.validJson = false →
      serveHTTP secret channelFull r = ⟨400, none, false⟩) ∧
    (r.method = "POST" → r.bodyReadable = true → (secret = "" ∨ r.signatureOK = true) →
      r.eventTypeHeader ≠ "" → parseEvent r.eventTypeHeader r.body = .ok none →
      serveHTTP secret channelFull r = ⟨200, none, false⟩) ∧
    (∀ ev : WebhookEvent, r.method = "POST" → r.bodyReadable = true →
      (secret = "" ∨ r.signatureOK = true) → r.eventTypeHeader ≠ "" →
      parseEvent r.eventTypeHeader r.body = .ok (some ev) → channelFull = true →
      serveHTTP secret channelFull r = ⟨200, none, true⟩) ∧
    (∀ ev : WebhookEvent, r.method = "POST" → r.bodyReadable = true →
      (secret = "" ∨ r.signatureOK = true) → r.eventTypeHeader ≠ "" →
      parseEvent r.eventTypeHeader r.body = .ok (some ev) → channelFull = false →
      serveHTTP secret channelFull r = ⟨200, some ev, false⟩) := by
  refine ⟨?_, ?_, ?_, ?_, ?_, ?_, ?_, ?_⟩
  · intro h
    rw [serveHTTP, if_pos h]
  · intro h1 h2
    rw [serveHTTP, if_neg (by simp [h1]), if_pos (by simp [h2])]
  · intro h1 h2 h3 h4
    rw [serveHTTP, if_neg (by simp [h1]), if_neg (by simp [h2]),
      if_pos ⟨h3, by simp [h4]⟩]
  · intro h1 h2 h3 h4
    rw [serveHTTP, if_neg (by simp [h1]), if_neg (by simp [h2]),
      if_neg (by rcases h3 with h | h <;> simp [h]), if_pos h4]
  · intro h1 h2 h3 h4 hv
    rw [serveHTTP_post secret channelFull r h1 h2 h3 h4]
    rw [show parseEvent r.eventTypeHeader r.body = .error "failed to parse base event" from
      by rw [parseEvent, if_pos (by simp [hv])]]
  · intro h1 h2 h3 h4 hp
    rw [serveHTTP_post secret channelFull r h1 h2 h3 h4, hp]
  · intro ev h1 h2 h3 h4 hp hcf
    rw [serveHTTP_post secret channelFull r h1 h2 h3 h4, hp]
    rw [hcf]
    rfl
  · intro ev h1 h2 h3 h4 hp hcf
    rw [serveHTTP_post secret channelFull r h1 h2 h3 h4, hp]
    rw [hcf]
    rfl

/-- C8 witness request: a valid POST push delivery arriving while the
channel is full. -/
def c8ReqW : WebhookRequest :=
  { method := "POST", eventTypeHeader := "push",
    body := { repoOwnerLogin := "acme", repoName := "widgets" } }

/-- C8 witness: with no secret configured and a full channel, the concrete
push request is answered 200 with the event dropped; and a GET is answered
405. -/
theorem c8_witness :
    serveHTTP "" true c8ReqW = ⟨200, none, true⟩ ∧
    serveHTTP "" false { c8ReqW with method := "GET" } = ⟨405, none, false⟩ :=
  ⟨(c8_response_determination "" true c8ReqW).2.2.2.2.2.2.1
      ⟨"push", "acme", "widgets", .push
        { ref := "", before := "", after := "", compare := "",
          pusher := { login := "" }, commits := [] }⟩
      rfl rfl (Or.inl rfl) (by decide) (by rfl) rfl,
    (c8_response_determination "" false { c8ReqW with method := "GET" }).1 (by decide)⟩
